import Mathlib

/-!
Shallow embedding of the visactl UI shell (src/MainWindow.py).

Each Qt widget class of the source becomes a Lean structure holding its
observable field values.  Each user interaction that the source wires to a
handler in a `connect` method becomes a constructor of an event type, and
the handler's effect becomes a step function returning the new widget state
together with the list of signal emissions (notifications) the handler
produces, in order.  Qt delivers a widget's value change before the
connected slot runs, so each step first updates the field and then lets the
slot read the updated state.
-/

namespace Visactl

/-- Check-state of a checkbox, mirroring the three-valued Qt.CheckState
enum returned by QCheckBox.checkState(): Unchecked, the intermediate
tri-state value, and Checked.  It is an enum value, not a Python bool. -/
inductive CheckState
  | unchecked
  | halfChecked
  | checked
  deriving DecidableEq, Repr

/-- Clicking a two-state QCheckBox sets checked to the negation of
isChecked(); isChecked() holds only in the checked state. -/
def CheckState.toggle : CheckState → CheckState
  | .checked => .unchecked
  | _ => .checked

/-- A Python value stored in a settings dictionary.  The source's payloads
hold check-states and strings; the boolean constructor exists so that the
runtime type of an entry can be stated and examined. -/
inductive PyValue
  | ofBool (b : Bool)
  | ofCheckState (c : CheckState)
  | ofString (s : String)
  deriving DecidableEq, Repr

def PyValue.isBool : PyValue → Bool
  | .ofBool _ => true
  | _ => false

def PyValue.isCheckState : PyValue → Bool
  | .ofCheckState _ => true
  | _ => false

def PyValue.isString : PyValue → Bool
  | .ofString _ => true
  | _ => false

/-- The dictionary built by SqlConnectionBox.settings, with its four keys
enabled, server, database, table. -/
structure SqlSettings where
  enabled : PyValue
  server : PyValue
  database : PyValue
  table : PyValue
  deriving DecidableEq, Repr

/-- Observable state of SqlConnectionBox: the logging checkbox and the
three line edits created in its layout method. -/
structure SqlConnectionBox where
  checkbox_status : CheckState
  line_server : String
  line_database : String
  line_table : String
  deriving DecidableEq, Repr

/-- State after construction: a fresh QCheckBox is unchecked and a fresh
QLineEdit holds the empty string. -/
def SqlConnectionBox.init : SqlConnectionBox :=
  { checkbox_status := .unchecked
    line_server := ""
    line_database := ""
    line_table := "" }

/-- SqlConnectionBox.settings: the dictionary of the current sql settings.
The enabled entry is checkbox_status.checkState(), a check-state enum
value; the other three entries are the line edits' text() strings. -/
def SqlConnectionBox.settings (s : SqlConnectionBox) : SqlSettings :=
  { enabled := .ofCheckState s.checkbox_status
    server := .ofString s.line_server
    database := .ofString s.line_database
    table := .ofString s.line_table }

/-- The four interactions wired in SqlConnectionBox.connect: a click on the
logging checkbox (its stateChanged signal) and an editingFinished commit on
each of the three line edits, carrying the committed text. -/
inductive SqlEvent
  | toggleCheckbox
  | editFinishServer (t : String)
  | editFinishDatabase (t : String)
  | editFinishTable (t : String)
  deriving DecidableEq, Repr

/-- One user commit on the SQL box.  All four signals are connected to
onSqlSettingsChanged, which emits signalSqlSettingsChanged with
self.settings(), read from the widgets after the value change. -/
def SqlConnectionBox.step (s : SqlConnectionBox) :
    SqlEvent → SqlConnectionBox × List SqlSettings
  | .toggleCheckbox =>
      let s2 := { s with checkbox_status := s.checkbox_status.toggle }
      (s2, [s2.settings])
  | .editFinishServer t =>
      let s2 := { s with line_server := t }
      (s2, [s2.settings])
  | .editFinishDatabase t =>
      let s2 := { s with line_database := t }
      (s2, [s2.settings])
  | .editFinishTable t =>
      let s2 := { s with line_table := t }
      (s2, [s2.settings])

/-- Observable state of VisaConnectionBox: the status value label and the
device combo box (its item list and current text). -/
structure VisaConnectionBox where
  lab_status_q : String
  dd_items : List String
  dd_currentText : String
  deriving DecidableEq, Repr

/-- Construction of VisaConnectionBox: its layout method creates the status
label with text "Disconnected" and an empty QComboBox (whose current text
is the empty string), then connect attaches onVisaSettingsChanged to
currentTextChanged.  No item is added and no widget value changes after the
handler is attached, so no signal fires during construction; the second
component lists the signalVisaSettingsChanged emissions observable while
constructing. -/
def VisaConnectionBox.construct : VisaConnectionBox × List String :=
  ({ lab_status_q := "Disconnected", dd_items := [], dd_currentText := "" }, [])

/-- The one interaction wired in VisaConnectionBox.connect: the combo box's
current text changing to a new value. -/
inductive VisaEvent
  | selectionChanged (v : String)
  deriving DecidableEq, Repr

/-- currentTextChanged fires only when the combo's current text actually
changes; onVisaSettingsChanged then forwards the new device string as-is
through signalVisaSettingsChanged, with no validation. -/
def VisaConnectionBox.step (s : VisaConnectionBox) :
    VisaEvent → VisaConnectionBox × List String
  | .selectionChanged v =>
      if v = s.dd_currentText then (s, [])
      else ({ s with dd_currentText := v }, [v])

/-- Run a sequence of events on the VISA box, keeping the final state. -/
def VisaConnectionBox.run (s : VisaConnectionBox) :
    List VisaEvent → VisaConnectionBox
  | [] => s
  | e :: es => VisaConnectionBox.run (s.step e).1 es

namespace QFileDialog

/-- QFileDialog.getExistingDirectory: the chosen directory path, or the
empty string when the user cancels the modal dialog.  The argument is the
user's choice, none meaning cancel. -/
def getExistingDirectory : Option String → String
  | some p => p
  | none => ""

/-- QFileDialog.getOpenFileName: a pair of the chosen file name and the
selected filter, both empty strings when the user cancels.  The filter
component is unused by the source, which only reads index 0; it is
modelled as the empty string. -/
def getOpenFileName : Option String → String × String
  | some f => (f, "")
  | none => ("", "")

end QFileDialog

/-- Observable state of LocalConnectionBox: the state-file and
fallback-directory line edits. -/
structure LocalConnectionBox where
  line_statefile : String
  line_dir : String
  deriving DecidableEq, Repr

/-- State after construction: both QLineEdits hold the empty string. -/
def LocalConnectionBox.init : LocalConnectionBox :=
  { line_statefile := "", line_dir := "" }

/-- The three interactions wired in LocalConnectionBox.connect: an
editingFinished commit on the fallback-directory line edit (carrying the
committed text), a click on the directory browse button, and a click on the
state-file browse button.  Each button click carries the outcome of its
modal dialog, none meaning the user cancelled. -/
inductive LocalEvent
  | editFinishDir (t : String)
  | dirButtonClick (choice : Option String)
  | statefileButtonClick (choice : Option String)
  deriving DecidableEq, Repr

/-- One user interaction on the local settings box.  Only line_dir's
editingFinished is connected to onLocalSettingsChanged, which emits
signalLocalSettingsChanged with line_dir.text().  Each button handler
writes its dialog's result into its line edit with setText, which does not
fire editingFinished, so no signal is emitted on either button path. -/
def LocalConnectionBox.step (s : LocalConnectionBox) :
    LocalEvent → LocalConnectionBox × List String
  | .editFinishDir t =>
      let s2 := { s with line_dir := t }
      (s2, [s2.line_dir])
  | .dirButtonClick choice =>
      ({ s with line_dir := QFileDialog.getExistingDirectory choice }, [])
  | .statefileButtonClick choice =>
      ({ s with line_statefile := (QFileDialog.getOpenFileName choice).1 }, [])

/-- The three tab pages created by TabWidget. -/
inductive Page
  | page_connections
  | page_statefile
  | page_aquisition
  deriving DecidableEq, Repr

/-- Observable state of TabWidget: whether tabs are user-movable and the
ordered list of (page, tab label) pairs. -/
structure TabWidget where
  movable : Bool
  tabs : List (Page × String)
  deriving DecidableEq, Repr

/-- State after construction: setMovable(False), then the three pages are
added in order with the labels written in the source. -/
def TabWidget.init : TabWidget :=
  { movable := false
    tabs := [(Page.page_connections, "Connections"),
             (Page.page_statefile, "Route"),
             (Page.page_aquisition, "Aquisition")] }

/-- Insert an element at position j of a list (QTabBar's reinsertion of a
dragged tab). -/
def insertAt (l : List (Page × String)) (j : Nat) (x : Page × String) :
    List (Page × String) :=
  l.take j ++ x :: l.drop j

/-- Move the element at position i to position j, as QTabBar.moveTab does
when a drag completes; out-of-range indices leave the list unchanged. -/
def moveTabList (l : List (Page × String)) (i j : Nat) :
    List (Page × String) :=
  match l.get? i with
  | none => l
  | some x => insertAt (l.eraseIdx i) j x

/-- A user drag trying to reorder tab i to position j: QTabBar honours the
drag only when the tab widget is movable. -/
def TabWidget.userDragTab (w : TabWidget) (i j : Nat) : TabWidget :=
  if w.movable then { w with tabs := moveTabList w.tabs i j } else w

/-- Observable state of the table inside StatefileTable: row count, column
count and the horizontal header labels. -/
structure StatefileTable where
  rowCount : Nat
  columnCount : Nat
  horizontalHeaders : List String
  deriving DecidableEq, Repr

/-- State after construction: QTableWidget(0, 4) with the four header
labels set from the source's literal list. -/
def StatefileTable.init : StatefileTable :=
  { rowCount := 0
    columnCount := 4
    horizontalHeaders := ["Description", "Units", "Scan", "Configure"] }

/-- Operations on the route table.  The codebase defines none: no handler,
signal or method touches the table after construction, so this event type
has no constructor. -/
inductive StatefileTableOp : Type

/-- Apply a table operation; vacuous, as no operation exists. -/
def StatefileTable.step (_t : StatefileTable) (o : StatefileTableOp) :
    StatefileTable :=
  nomatch o

/-- Run a sequence of table operations. -/
def StatefileTable.run (t : StatefileTable) :
    List StatefileTableOp → StatefileTable
  | [] => t
  | o :: os => StatefileTable.run (t.step o) os

/-- Observable state of MetadataBox: the part-number and run-number line
edits. -/
structure MetadataBox where
  line_part : String
  line_number : String
  deriving DecidableEq, Repr

/-- State after construction: both QLineEdits hold the empty string. -/
def MetadataBox.init : MetadataBox :=
  { line_part := "", line_number := "" }

/-- User edits available on the metadata box: committing text into either
line edit. -/
inductive MetadataEvent
  | editPart (t : String)
  | editNumber (t : String)
  deriving DecidableEq, Repr

/-- One edit on the metadata box.  MetadataBox declares no pyqtSignal and
connects no slot, so an edit only updates the field value and emits
nothing; the second component lists the emitted notifications. -/
def MetadataBox.step (s : MetadataBox) :
    MetadataEvent → MetadataBox × List String
  | .editPart t => ({ s with line_part := t }, [])
  | .editNumber t => ({ s with line_number := t }, [])

/-- Run a sequence of edits on the metadata box, accumulating every
emitted notification in order. -/
def MetadataBox.run (s : MetadataBox) :
    List MetadataEvent → MetadataBox × List String
  | [] => (s, [])
  | e :: es =>
      let r := s.step e
      let r2 := MetadataBox.run r.1 es
      (r2.1, r.2 ++ r2.2)

/-- Each step of the VISA box leaves the status label untouched: no
handler writes to lab_status_q. -/
theorem visa_step_preserves_status (s : VisaConnectionBox) (e : VisaEvent) :
    ((s.step e).1).lab_status_q = s.lab_status_q := by
  cases e with
  | selectionChanged v =>
      by_cases h : v = s.dd_currentText <;>
        simp [VisaConnectionBox.step, h]

/-- Running any event sequence leaves the status label untouched. -/
theorem visa_run_preserves_status (s : VisaConnectionBox)
    (es : List VisaEvent) :
    (VisaConnectionBox.run s es).lab_status_q = s.lab_status_q := by
  induction es generalizing s with
  | nil => rfl
  | cons e es ih =>
      rw [VisaConnectionBox.run, ih, visa_step_preserves_status]

/-- C1: every single-field commit on the SQL connection panel — a toggle
of the logging checkbox, or an edit-completion in the server, database or
table field — emits exactly one storage-settings notification, and its
payload is the full four-field record read from the current value of all
four fields at the moment of emission. -/
theorem sql_single_commit_emits_full_record
    (s : SqlConnectionBox) (e : SqlEvent) :
    ((s.step e).2).length = 1 ∧
    (s.step e).2 = [((s.step e).1).settings] := by
  cases e <;> exact ⟨rfl, rfl⟩

/-- C2 as stated fails: with the fallback-directory field holding a
previous value, cancelling the directory picker does not leave the field
unchanged — the handler writes the dialog result into the field
unconditionally, so the field becomes the empty string. -/
theorem dir_picker_cancel_clears_field :
    ¬ (((LocalConnectionBox.step
          { line_statefile := "", line_dir := "/data/fallback" }
          (LocalEvent.dirButtonClick none)).1).line_dir = "/data/fallback") := by
  decide

/-- C2 amended: confirming a directory writes the chosen path into the
fallback-directory field; cancelling the picker writes the dialog's empty
return into the field, overwriting any previous value; neither case emits
a notification or raises an error (the handler is total). -/
theorem dir_picker_writes_dialog_result :
    (∀ (s : LocalConnectionBox) (p : String),
      LocalConnectionBox.step s (LocalEvent.dirButtonClick (some p)) =
        ({ s with line_dir := p }, [])) ∧
    (∀ s : LocalConnectionBox,
      LocalConnectionBox.step s (LocalEvent.dirButtonClick none) =
        ({ s with line_dir := "" }, [])) := by
  exact ⟨fun s p => rfl, fun s => rfl⟩

/-- C3 as stated fails: in the payload emitted after toggling the logging
checkbox on a freshly constructed SQL box, the enabled entry is the
checkbox's check-state enum value, not a boolean. -/
theorem sql_enabled_entry_not_boolean :
    ((SqlConnectionBox.init.step SqlEvent.toggleCheckbox).2.map
      (fun p => p.enabled.isBool)) = [false] := by
  rfl

/-- C3 amended: every storage-settings notification payload is assembled
fresh from the four fields on each change; its enabled entry is the
checkbox's check-state enum value (never a boolean) and its server,
database and table entries are plain strings. -/
theorem sql_payload_field_types :
    (∀ (s : SqlConnectionBox) (e : SqlEvent),
      (s.step e).2 = [((s.step e).1).settings]) ∧
    (∀ s : SqlConnectionBox,
      (s.settings).enabled = PyValue.ofCheckState s.checkbox_status ∧
      (s.settings).enabled.isBool = false ∧
      (s.settings).enabled.isCheckState = true ∧
      (s.settings).server = PyValue.ofString s.line_server ∧
      (s.settings).database = PyValue.ofString s.line_database ∧
      (s.settings).table = PyValue.ofString s.line_table) := by
  constructor
  · intro s e
    cases e <;> rfl
  · intro s
    exact ⟨rfl, rfl, rfl, rfl, rfl, rfl⟩

/-- C4: completing a manual edit of the fallback-directory field emits
exactly one path-change notification carrying the field's current text,
and that signal is the only emitting path: both browse buttons update
their field's value through setText without emitting anything. -/
theorem local_only_dir_edit_emits :
    (∀ (s : LocalConnectionBox) (t : String),
      LocalConnectionBox.step s (LocalEvent.editFinishDir t) =
        ({ s with line_dir := t }, [t])) ∧
    (∀ (s : LocalConnectionBox) (c : Option String),
      (LocalConnectionBox.step s (LocalEvent.dirButtonClick c)).2 = []) ∧
    (∀ (s : LocalConnectionBox) (c : Option String),
      ((LocalConnectionBox.step s (LocalEvent.dirButtonClick c)).1).line_dir
        = QFileDialog.getExistingDirectory c) ∧
    (∀ (s : LocalConnectionBox) (c : Option String),
      (LocalConnectionBox.step s (LocalEvent.statefileButtonClick c)).2 = []) ∧
    (∀ (s : LocalConnectionBox) (e : LocalEvent),
      (LocalConnectionBox.step s e).2 = [] ∨
      ∃ t, e = LocalEvent.editFinishDir t) := by
  refine ⟨fun s t => rfl, fun s c => rfl, fun s c => rfl, fun s c => rfl, ?_⟩
  intro s e
  cases e with
  | editFinishDir t => exact Or.inr ⟨t, rfl⟩
  | dirButtonClick c => exact Or.inl rfl
  | statefileButtonClick c => exact Or.inl rfl

/-- C5: construction of the VISA panel emits no device-selection
notification, and a change of the device selector to a value v different
from the current text emits exactly one notification whose payload is
exactly v, forwarded as-is. -/
theorem visa_selection_change_emits_value :
    VisaConnectionBox.construct.2 = [] ∧
    ∀ (s : VisaConnectionBox) (v : String), v ≠ s.dd_currentText →
      VisaConnectionBox.step s (VisaEvent.selectionChanged v) =
        ({ s with dd_currentText := v }, [v]) := by
  refine ⟨rfl, ?_⟩
  intro s v h
  simp [VisaConnectionBox.step, h]

/-- Witness for C5 at a concrete selection on the freshly constructed
panel. -/
theorem visa_selection_change_emits_value_witness :
    ("GPIB0::9" ≠ VisaConnectionBox.construct.1.dd_currentText) ∧
    VisaConnectionBox.step VisaConnectionBox.construct.1
        (VisaEvent.selectionChanged "GPIB0::9") =
      ({ VisaConnectionBox.construct.1 with dd_currentText := "GPIB0::9" },
        ["GPIB0::9"]) :=
  ⟨by decide,
    visa_selection_change_emits_value.2 VisaConnectionBox.construct.1
      "GPIB0::9" (by decide)⟩

/-- C6 as stated fails: the third tab's label in the source is the literal
string "Aquisition", so the tab labels are not the claimed list ending in
"Acquisition". -/
theorem tab_labels_differ_from_claim :
    ¬ ((TabWidget.init.tabs.map Prod.snd) =
        ["Connections", "Route", "Acquisition"]) := by
  decide

/-- C6 amended: the tab container exposes exactly three tabs, in the fixed
order Connections, Route, Aquisition (the source's spelling of the third
label), it is not movable, and any drag-reordering attempt leaves the tab
order unchanged. -/
theorem tabs_fixed_three_nonreorderable :
    TabWidget.init.tabs.map Prod.snd = ["Connections", "Route", "Aquisition"] ∧
    TabWidget.init.tabs.length = 3 ∧
    TabWidget.init.movable = false ∧
    ∀ i j : Nat, TabWidget.userDragTab TabWidget.init i j = TabWidget.init := by
  refine ⟨rfl, rfl, rfl, ?_⟩
  intro i j
  rfl

/-- C7: after construction the route table exposes exactly four columns
with the literal headers "Description", "Units", "Scan", "Configure" in
that order and zero rows, and this holds after any sequence of table
operations, since the codebase defines none. -/
theorem route_table_columns_fixed (ops : List StatefileTableOp) :
    (StatefileTable.run StatefileTable.init ops).columnCount = 4 ∧
    (StatefileTable.run StatefileTable.init ops).horizontalHeaders =
      ["Description", "Units", "Scan", "Configure"] ∧
    (StatefileTable.run StatefileTable.init ops).rowCount = 0 := by
  cases ops with
  | nil => exact ⟨rfl, rfl, rfl⟩
  | cons o os => cases o

/-- C8: the metadata panel never emits a notification: every sequence of
edits to the part-number and run-number fields produces an empty emission
list; the field values are only held in the state, readable on demand. -/
theorem metadata_box_never_emits (s : MetadataBox)
    (es : List MetadataEvent) :
    (MetadataBox.run s es).2 = [] := by
  induction es generalizing s with
  | nil => rfl
  | cons e es ih =>
      cases e <;> simp [MetadataBox.run, MetadataBox.step, ih]

/-- C9: the VISA connection status indicator is initialised to the text
"Disconnected" at construction, and no event sequence ever changes it:
its text is "Disconnected" in every reachable state. -/
theorem visa_status_always_disconnected (es : List VisaEvent) :
    (VisaConnectionBox.run VisaConnectionBox.construct.1 es).lab_status_q =
      "Disconnected" := by
  rw [visa_run_preserves_status]
  rfl

/-- C10: the state-file picker writes the first component of the dialog's
return unconditionally into the state-file field, so a cancelled picker
(whose return is the pair of empty strings) sets the field to the empty
string, overwriting any previous value; neither confirming nor cancelling
emits a notification. -/
theorem statefile_picker_unconditional_write :
    (∀ (s : LocalConnectionBox) (c : Option String),
      LocalConnectionBox.step s (LocalEvent.statefileButtonClick c) =
        ({ s with line_statefile := (QFileDialog.getOpenFileName c).1 }, [])) ∧
    (QFileDialog.getOpenFileName none).1 = "" ∧
    (∀ f : String, (QFileDialog.getOpenFileName (some f)).1 = f) ∧
    (∀ s : LocalConnectionBox,
      LocalConnectionBox.step s (LocalEvent.statefileButtonClick none) =
        ({ s with line_statefile := "" }, [])) := by
  exact ⟨fun s c => rfl, rfl, fun f => rfl, fun s => rfl⟩

end Visactl
